import Mathlib

/-!
Verification of the MARI report-generation core against its source.

The development shallowly embeds the parts of the code that the checked
properties speak about:

* `services/gamma.ts` — theme-catalog pagination (`listGammaThemes`),
  export submission (`generatePresentation`, modelled by `submitGeneration`)
  and the status poll loop (`pollForPptxGeneration`), together with the
  HTTP error classification both share (403 + "corsdemo" body marker
  versus a generic error carrying the response body).
* `services/gemini.ts` — the theme-keyed prompt table with its generic
  fallback, the prompt/system-instruction composition, and the two
  best-effort suggestion helpers that swallow their own failures.
* `utils/fileHelper.ts` and the `handleSubmitDraft` flow of
  `ReportGenerator.tsx` — per-file normalization into Gemini content
  parts, the Excel sheet serialization with START/END markers, and the
  all-or-nothing behaviour of the pre-generation file processing.

Network effects are embedded by passing each operation the scripted
sequence of responses the backend would deliver; a run that would need
more responses than the script holds returns `none`.  JavaScript string
operations (`trim`, `replace`, `toLowerCase`, `includes`, `endsWith`)
are modelled by executable character-list functions so that concrete
runs reduce inside the kernel.
-/

/-! ## JavaScript string primitives -/

/-- Bool test that the first list is an initial segment of the second
(model of `String.prototype.startsWith` at the character level). -/
def leadsWith : List Char → List Char → Bool
  | [], _ => true
  | _ :: _, [] => false
  | a :: as, b :: bs => a == b && leadsWith as bs

/-- Bool test that `needle` occurs contiguously inside the list
(model of `String.prototype.includes` at the character level). -/
def containsSeg (needle : List Char) : List Char → Bool
  | [] => needle.isEmpty
  | c :: rest => leadsWith needle (c :: rest) || containsSeg needle rest

/-- Model of `hay.includes(needle)` on strings. -/
def containsSubstringB (hay needle : String) : Bool :=
  containsSeg needle.data hay.data

/-- Model of `String.prototype.toLowerCase` (ASCII-adequate for the
markers the code inspects). -/
def lowerStr (s : String) : String := ⟨s.data.map Char.toLower⟩

/-- Model of `String.prototype.trim`: drop whitespace from both ends. -/
def jsTrim (s : String) : String :=
  ⟨(((s.data.dropWhile Char.isWhitespace).reverse).dropWhile Char.isWhitespace).reverse⟩

/-- Model of `s.replace(/"/g, "")`: remove every double-quote character. -/
def stripQuotes (s : String) : String := ⟨s.data.filter (fun c => c != '"')⟩

/-- Model of `s.startsWith(p)` on strings. -/
def startsWithStr (s p : String) : Bool := leadsWith p.data s.data

/-- Model of `s.endsWith(p)` on strings. -/
def endsWithStr (s p : String) : Bool := leadsWith p.data.reverse s.data.reverse

/-- JavaScript truthiness of an optional string: `undefined` and the
empty string are falsy, any other string is truthy. -/
def optStrTruthy : Option String → Bool
  | none => false
  | some s => s != ""

/-! ## services/gamma.ts — shared HTTP error classification

Both `listGammaThemes` and `pollForPptxGeneration` (and the initial
POST of `generatePresentation`) run the same lines on a non-ok
response: read the body text; when the status is 403 and the lowercased
body contains `corsdemo`, throw the distinguished
`CORS_PROXY_REQUIRED:` error, otherwise throw a generic error carrying
the body.  `GammaRequestError` is the typed rendering of that split. -/

/-- Typed rendering of the two failure shapes the Gamma call sites
produce from a non-ok response: the distinguished proxy-activation
error (`CORS_PROXY_REQUIRED:` message) versus the generic error whose
message carries the response body. -/
inductive GammaRequestError where
  | proxyAccessRequired
  | apiError (status : Nat) (body : String)
deriving DecidableEq, Repr

/-- The proxy-activation marker the code looks for in a 403 body:
`errorText.toLowerCase().includes('corsdemo')`. -/
def bodyHasMarker (body : String) : Bool :=
  containsSeg "corsdemo".data (lowerStr body).data

/-- `fetch` sets `Response.ok` exactly when the status is 200–299. -/
def isOkStatus (status : Nat) : Bool := decide (200 ≤ status ∧ status ≤ 299)

/-- The classification the code performs inside its `!response.ok`
branches: 403 plus marker yields the proxy error, anything else the
generic error with the body. -/
def classifyNonOk (status : Nat) (body : String) : GammaRequestError :=
  if status == 403 && bodyHasMarker body then GammaRequestError.proxyAccessRequired
  else GammaRequestError.apiError status body

/-- Full classification of an HTTP response: success (ok status) passes
through (`none`), a non-ok response is classified by `classifyNonOk`. -/
def classifyGammaResponse (status : Nat) (body : String) : Option GammaRequestError :=
  if isOkStatus status then none else some (classifyNonOk status body)

/-! ## services/gamma.ts — listGammaThemes (paginated catalog) -/

/-- A raw theme object from the `/themes` page payload; the code only
projects `id` and `name` out of it, `otherFields` stands for the rest
of the JSON object it ignores. -/
structure RawTheme where
  id : String
  name : String
  otherFields : String := ""
deriving DecidableEq, Repr

/-- The `{id, name}` pair `listGammaThemes` accumulates. -/
structure GammaTheme where
  id : String
  name : String
deriving DecidableEq, Repr

/-- The `.map((theme) => ({id: theme.id, name: theme.name}))` projection. -/
def projectTheme (t : RawTheme) : GammaTheme := { id := t.id, name := t.name }

/-- One parsed `/themes` page: `{data, hasMore, nextCursor}`. -/
structure ThemesPage where
  data : List RawTheme
  hasMore : Bool
  nextCursor : Option String := none
deriving DecidableEq, Repr

/-- One scripted outcome of a `/themes` fetch: parsed ok page, non-ok
HTTP response (status + body text), or a thrown network error. -/
inductive PageFetch where
  | ok (page : ThemesPage)
  | bad (status : Nat) (body : String)
  | fail (err : String)
deriving DecidableEq, Repr

/-- How a `listGammaThemes` run ends: the accumulated themes, a
classified HTTP error, or a propagated network error. -/
inductive CatalogOutcome where
  | themes (allThemes : List GammaTheme)
  | httpError (e : GammaRequestError)
  | netError (err : String)
deriving DecidableEq, Repr

/-- The `while (hasMore)` loop of `listGammaThemes`: state is the
`allThemes` accumulator, the `afterCursor` (only used to shape the
request URL) and the `hasMore` flag.  Each iteration consumes one
scripted fetch; `none` means the script ran out while the loop still
wanted another page. -/
def listLoop (script : List PageFetch) (allThemes : List GammaTheme)
    (afterCursor : Option String) (hasMore : Bool) : Option CatalogOutcome :=
  if hasMore then
    match script with
    | [] => none
    | PageFetch.fail e :: _ => some (CatalogOutcome.netError e)
    | PageFetch.bad status body :: _ =>
        some (CatalogOutcome.httpError (classifyNonOk status body))
    | PageFetch.ok page :: rest =>
        listLoop rest (allThemes ++ page.data.map projectTheme) page.nextCursor page.hasMore
  else some (CatalogOutcome.themes allThemes)

/-- `listGammaThemes` enters the loop with an empty accumulator, no
cursor and `hasMore = true`. -/
def listGammaThemes (script : List PageFetch) : Option CatalogOutcome :=
  listLoop script [] none true

/-! ## services/gamma.ts — pollForPptxGeneration -/

/-- Parsed body of a `/generations/{id}` status response
(`GammaGenerationStatusResponse` in the source). -/
structure GammaGenerationStatusResponse where
  generationId : String := ""
  status : String := "pending"
  gammaUrl : Option String := none
  pptxUrl : Option String := none
  error : Option String := none
deriving DecidableEq, Repr

/-- One scripted outcome of a status poll fetch. -/
inductive PollFetch where
  | ok (result : GammaGenerationStatusResponse)
  | bad (status : Nat) (body : String)
  | fail (err : String)
deriving DecidableEq, Repr

/-- How the poll promise settles: resolved with the PPTX url, rejected
because the generation failed (carrying `result.error`), rejected with
a classified HTTP error, rejected with a network error, or rejected
with the timeout message. -/
inductive PollOutcome where
  | resolved (pptxUrl : String)
  | exportFailed (detail : Option String)
  | httpError (e : GammaRequestError)
  | netError (err : String)
  | timedOut
deriving DecidableEq, Repr

/-- `const maxAttempts = 30` of `pollForPptxGeneration`. -/
def maxAttempts : Nat := 30

/-- `const pollInterval = 5000` of `pollForPptxGeneration` (wall-clock
spacing of the ticks; it does not influence the settled value). -/
def pollInterval : Nat := 5000

/-- One `setInterval` tick and its successors.  A tick first increments
`attempts` and times out when the new count exceeds `maxAttempts`
(before issuing any fetch); otherwise it consumes the next scripted
fetch and follows the source branches: non-ok response classified and
rejected, `completed` with a truthy `pptxUrl` resolved, `failed`
rejected, anything else keeps polling.  The `Nat` in the result counts
the status polls actually issued; `none` means the script ran out while
the loop was still polling. -/
def pollFrom (script : List PollFetch) (attempts : Nat) : Option (PollOutcome × Nat) :=
  if attempts + 1 > maxAttempts then some (PollOutcome.timedOut, 0)
  else
    match script with
    | [] => none
    | PollFetch.fail e :: _ => some (PollOutcome.netError e, 1)
    | PollFetch.bad status body :: _ =>
        some (PollOutcome.httpError (classifyNonOk status body), 1)
    | PollFetch.ok result :: rest =>
        if result.status == "completed" && optStrTruthy result.pptxUrl then
          some (PollOutcome.resolved (result.pptxUrl.getD ""), 1)
        else if result.status == "failed" then
          some (PollOutcome.exportFailed result.error, 1)
        else
          match pollFrom rest (attempts + 1) with
          | none => none
          | some (o, n) => some (o, n + 1)

/-- `pollForPptxGeneration` starts the interval with `attempts = 0`. -/
def pollForPptxGeneration (script : List PollFetch) : Option (PollOutcome × Nat) :=
  pollFrom script 0

/-! ## services/gamma.ts — generatePresentation submission -/

/-- Parsed body of the initial POST response
(`GammaGenerationStartResponse` in the source). -/
structure GammaGenerationStartResponse where
  generationId : String
  status : String
deriving DecidableEq, Repr

/-- One scripted outcome of the `/generations` POST. -/
inductive SubmitFetch where
  | ok (resp : GammaGenerationStartResponse)
  | bad (status : Nat) (body : String)
  | fail (err : String)
deriving DecidableEq, Repr

/-- Result of the submission step of `generatePresentation`. -/
inductive SubmitOutcome where
  | started (resp : GammaGenerationStartResponse)
  | httpError (e : GammaRequestError)
  | netError (err : String)
deriving DecidableEq, Repr

/-- The submission step of `generatePresentation`: a non-ok response is
classified exactly like the other two call sites, a network error
propagates, a parsed ok response starts the poll phase. -/
def submitGeneration (f : SubmitFetch) : SubmitOutcome :=
  match f with
  | SubmitFetch.ok r => SubmitOutcome.started r
  | SubmitFetch.bad status body => SubmitOutcome.httpError (classifyNonOk status body)
  | SubmitFetch.fail e => SubmitOutcome.netError e

/-! ## services/gemini.ts — prompt composition -/

/-- The fixed base persona instruction `MARY_PERSONA_PROMPT`. -/
def MARY_PERSONA_PROMPT : String := "
1.0 DIRETRIZ PRIMÁRIA E PERSONA
--------------------------------
1.1 Persona
Você é Mary, uma IA Analista de Estratégia de Mídia da Artplan.
Sua função é receber dados brutos e briefings para gerar rascunhos de relatórios de alto impacto, com visualização clara e insights acionáveis, formatados em Markdown.
Você deve atuar como cientista de dados, interpretando planilhas e relatórios oficiais, cruzando dados, gerando análises profundas e visuais.

1.2 Diretriz Primária
Sua missão é produzir rascunhos que sirvam como ferramentas de negócio decisivas. Cada documento deve ser:
- **Estrategicamente denso e conciso:** Foque em um formato \"OnePage\". Rico em dados, análises e insights, mas sem excessos.
- **Comunicativamente assertivo:** claro, convincente e baseado em fatos.

1.3 Tom de Voz: \"Strategic & Assertive\"
- O impacto nasce da clareza e autoridade dos dados, nunca de adjetivos vazios.
- Escreva como um consultor sênior. Frases curtas, diretas e factuais.
- Conclua sempre com insights aplicáveis.
- Evite palavras fortes como *disruptivo, recorde, mudança de paradigma* sem comprovação robusta.

2.0 PROTOCOLO OPERACIONAL
--------------------------------
2.1 Fase de Análise e Síntese
- Analise todas as fontes fornecidas nos arquivos anexados, incluindo o conteúdo de imagens (prints de dashboards, recortes, etc.).
- Extraia métricas quantitativas e insights qualitativos.
- **REGRA DE OURO INLINE:** Ao mencionar qualquer métrica ou dado extraído de um arquivo, **CITE A FONTE IMEDIATAMENTE APÓS O DADO**, no formato (Fonte: nome_do_arquivo.xlsx). Isso é crucial.
- Privilegie sempre os dados das planilhas e PDFs fornecidos. Fontes da web (via Google Search, se ativado) devem ser usadas para complementar e contextualizar, nunca para substituir os dados primários. As fontes da web devem ser listadas apenas no final do relatório.

3.0 ESPECIFICAÇÃO DE CONTEÚDO E ESTRUTURA
-----------------------------------------
3.1 Blueprint Narrativo
O rascunho em Markdown deve seguir esta estrutura:
- **Resumo Estratégico:** 3 principais takeaways.
- **Contextualização:** O cenário analisado.
- **Análise Comparativa/Evolutiva:** Comparações de dados e tendências.
- **Análise de Audiência:** Dados de comportamento/demografia.
- **Impacto e Resultados:** Métricas de performance relevantes.
- **Implicações e Oportunidades:** O \"e daí?\" - o que os dados significam e quais os próximos passos.

3.2 Visualização de Dados (IMPORTANTE)
- **NÃO USE TABELAS MARKDOWN TRADICIONAIS** (`| Header | ... |`). Elas não são renderizadas corretamente.
- Para apresentar KPIs e métricas chave, use **SEMPRE** um dos seguintes formatos visuais:
  - **Cards/Blocos (Big Numbers):** Use blockquotes para destacar métricas individuais.
    Exemplo:
    > **Receita do Trimestre**
    > US$ 2.7 bilhões
    > ↑ 8% vs período anterior
  - **Listas com Emojis:** Use listas para agrupar métricas relacionadas, com emojis relevantes.
    Exemplo:
    - 📊 **Receita**: US$ 2.7B (+8% vs Q3)
    - 💰 **EBITDA**: US$ 200M (+11% vs Q3)
"

/-- The closed mapping `THEME_PROMPTS` keyed by theme identifier. -/
def THEME_PROMPTS : List (String × String) :=
  [ ("Estratégia de Crescimento", "
**Foco do Relatório: Estratégia de Crescimento**
O objetivo é identificar as principais alavancas de crescimento. Analise os dados para encontrar:
- Canais com melhor performance (ROI, CPA, etc.) e potencial de otimização.
- Segmentos de audiência com maior engajamento ou conversão.
- Oportunidades de mercado não exploradas com base nos dados e contexto da web.
- Análise competitiva, se houver dados para tal.
Estruture a seção \"Implicações e Oportunidades\" com recomendações claras para impulsionar o crescimento."),
    ("Reconhecimento de Marca", "
**Foco do Relatório: Reconhecimento de Marca (Brand Awareness)**
O objetivo é mensurar e entender a visibilidade e percepção da marca. Analise os dados para encontrar:
- Evolução do Share of Voice, alcance e impressões.
- Análise de sentimento e menções à marca (se houver dados de social listening).
- Performance de campanhas de topo de funil (views, cliques, etc.).
- Insights sobre a percepção da marca pela audiência.
Destaque no \"Resumo Estratégico\" os principais KPIs que demonstram a saúde da marca no período."),
    ("Análise de Mercado", "
**Foco do Relatório: Análise de Mercado**
O objetivo é fornecer um panorama do mercado e da posição do cliente. Analise os dados para:
- Mapear os principais concorrentes e suas performances.
- Identificar tendências de consumo e comportamento do consumidor (dados TGI, se disponíveis).
- Avaliar o market share e oportunidades de posicionamento.
- Usar a busca na web (se ativada) para contextualizar os dados com notícias e movimentos recentes do setor.
A conclusão deve apresentar um diagnóstico claro da posição competitiva do cliente."),
    ("Planejamento de Mídia", "
**Foco do Relatório: Planejamento de Mídia**
O objetivo é analisar dados para informar um futuro plano de mídia. Procure por:
- Performance histórica de diferentes canais e formatos.
- Insights de audiência (TGI, etc.) para guiar a seleção de canais.
- Análise de sazonalidade e picos de interesse (Google Trends, se aplicável).
- Recomendações de mix de canais e orçamento com base nos dados.
A seção \"Implicações e Oportunidades\" deve ser um pré-planejamento tático."),
    ("Análise de Social Media", "
**Foco do Relatório: Análise de Social Media**
O objetivo é avaliar a performance e o impacto das redes sociais. Analise:
- Métricas de engajamento (curtidas, comentários, compartilhamentos) por plataforma.
- Crescimento da base de seguidores.
- Análise de conteúdo: quais formatos e temas performam melhor?
- Análise de sentimento e principais temas de conversa.
- Performance de campanhas de social ads (se houver dados)."),
    ("Relatório de Performance (Pós-Campanha)", "
**Foco do Relatório: Performance de Campanha**
O objetivo é fazer uma análise detalhada dos resultados de uma campanha finalizada. Foque em:
- Comparar os resultados com os KPIs e metas estabelecidas no briefing.
- Analisar o funil de conversão (impressões, cliques, leads, vendas).
- Calcular métricas chave como CPA, CPL, ROAS (se dados disponíveis).
- Identificar os principais aprendizados e otimizações realizadas.
O \"Resumo Estratégico\" deve responder claramente: \"A campanha atingiu seus objetivos?\""),
    ("Branding & Posicionamento", "
**Foco do Relatório: Branding & Posicionamento**
O objetivo é analisar como a marca está sendo percebida. Analise:
- Dados de Brand Lift, Health Tracking, e pesquisas de marca.
- Menções na mídia e análise de sentimento.
- Territórios de comunicação associados à marca.
- Comparativos com concorrentes em termos de percepção.
O relatório deve concluir com um diagnóstico sobre a força e o posicionamento atual da marca."),
    ("Análise de Concorrência", "
**Foco do Relatório: Análise de Concorrência**
O objetivo é monitorar e analisar as ações dos concorrentes. Busque por:
- Exemplos de campanhas e peças criativas dos concorrentes.
- Estimativas de investimento de mídia (se houver dados).
- Share of Voice e Share of Mind.
- Análise de posicionamento e territórios de comunicação dos concorrentes.
A seção \"Implicações e Oportunidades\" deve focar em como o cliente pode se diferenciar ou reagir.") ]

/-- The generic fallback brief used when the theme is not a key of
`THEME_PROMPTS` (the right operand of the `||` in the source). -/
def genericThemePrompt : String :=
  "Analise os dados fornecidos e gere um relatório conciso e estratégico."

/-- `THEME_PROMPTS[theme] || fallback`: a missing key — or, by
JavaScript truthiness, an empty-string entry — yields the fallback. -/
def themePromptFor (theme : String) : String :=
  match List.lookup theme THEME_PROMPTS with
  | some p => if p == "" then genericThemePrompt else p
  | none => genericThemePrompt

/-- The tone directive appended to the persona prompt inside
`generateReportDraft`. -/
def toneInstruction (tone : String) : String :=
  "\n1.4 Tom Específico para este Relatório: Adote um tom **" ++ tone ++ "**."

/-- `finalSystemPrompt = MARY_PERSONA_PROMPT + toneInstruction`. -/
def finalSystemPrompt (tone : String) : String :=
  MARY_PERSONA_PROMPT ++ toneInstruction tone

/-- The composed user prompt of `generateReportDraft`:
theme brief, blank line, briefing header, user prompt. -/
def fullUserPrompt (theme : String) (prompt : String) : String :=
  themePromptFor theme ++ "\n\n**Briefing do Usuário:**\n" ++ prompt

/-! ## services/gemini.ts — suggestion helpers -/

/-- The `response.text.trim().replace(/"/g, '')` post-processing both
suggestion helpers apply on success. -/
def cleanSuggestion (s : String) : String := stripQuotes (jsTrim s)

/-- `generateImagePromptSuggestion`: the whole body is a try/catch whose
catch returns the empty string; the argument is the outcome of the
inner `generateContent` await (`Except.error` = the call threw). -/
def generateImagePromptSuggestion (call : Except String String) : String :=
  match call with
  | Except.ok text => cleanSuggestion text
  | Except.error _ => ""

/-- `generateImageStyleSuggestion`: same try/catch shape as the prompt
suggestion, with its own request. -/
def generateImageStyleSuggestion (call : Except String String) : String :=
  match call with
  | Except.ok text => cleanSuggestion text
  | Except.error _ => ""

/-- The suggestion step of `handleSubmitDraft`:
`Promise.all([generateImagePromptSuggestion(text), generateImageStyleSuggestion(text)])`.
Since each helper absorbs its own failure, the pair always settles. -/
def suggestionEngine (promptCall styleCall : Except String String) : String × String :=
  (generateImagePromptSuggestion promptCall, generateImageStyleSuggestion styleCall)

/-! ## utils/fileHelper.ts and the file-processing part of handleSubmitDraft -/

/-- One worksheet of a parsed workbook, already serialized the way
`XLSX.utils.sheet_to_csv` delivers it: the sheet name (workbook sheets
are listed in `SheetNames` source order) and its CSV text. -/
structure SheetData where
  sheetName : String
  csv : String
deriving DecidableEq, Repr

/-- The marker-wrapped block `convertExcelToText` appends per sheet:
`--- START OF SHEET: <name> ---`, the CSV, `--- END OF SHEET: <name> ---`
and a blank separator line. -/
def sheetBlock (s : SheetData) : String :=
  "--- START OF SHEET: " ++ s.sheetName ++ " ---\n" ++ s.csv ++
    "\n--- END OF SHEET: " ++ s.sheetName ++ " ---\n\n"

/-- The `fullText` accumulation of `convertExcelToText`: start from the
empty string and append one block per sheet, in sheet order. -/
def excelFullText (workbook : List SheetData) : String :=
  workbook.foldl (fun fullText s => fullText ++ sheetBlock s) ""

/-- An uploaded `File` together with the outcomes of the client-side
reads the helpers perform on it: `readFails`/`readErrMsg` model the
`FileReader` firing `onerror`, `resultNull` models `onload` with a
missing `event.target.result`, `workbook` is the result of `XLSX.read`
(`none` = the parser threw, with message `parseErrMsg`), `textContent`
is what `readAsText` delivers and `base64Data` the payload
`fileToBase64` extracts from the data URL. -/
structure UploadFile where
  name : String
  declaredType : String := ""
  readFails : Bool := false
  readErrMsg : String := ""
  resultNull : Bool := false
  workbook : Option (List SheetData) := none
  parseErrMsg : String := ""
  textContent : String := ""
  base64Data : String := ""
deriving DecidableEq, Repr

/-- `convertExcelToText`: reject with the reader error, reject with the
literal `"Failed to read file."` when the load event carries no result,
reject with the parser exception when `XLSX.read` throws, otherwise
resolve with the trimmed concatenation of the per-sheet blocks. -/
def convertExcelToText (f : UploadFile) : Except String String :=
  if f.readFails then Except.error f.readErrMsg
  else if f.resultNull then Except.error "Failed to read file."
  else
    match f.workbook with
    | none => Except.error f.parseErrMsg
    | some wb => Except.ok (jsTrim (excelFullText wb))

/-- `fileToText`: resolve with the text content, reject on a reader
error. -/
def fileToText (f : UploadFile) : Except String String :=
  if f.readFails then Except.error f.readErrMsg else Except.ok f.textContent

/-- `fileToBase64`: resolve with the base64 payload of the data URL,
reject on a reader error. -/
def fileToBase64 (f : UploadFile) : Except String String :=
  if f.readFails then Except.error f.readErrMsg else Except.ok f.base64Data

/-- A `GeminiPart` as in `types.ts`: either a text part or an inline
base64 binary part with its MIME type. -/
inductive GeminiPart where
  | text (value : String)
  | inlineData (mimeType : String) (data : String)
deriving DecidableEq, Repr

/-- The spreadsheet MIME type the mapper compares `file.type` with. -/
def xlsxMime : String :=
  "application/vnd.openxmlformats-officedocument.spreadsheetml.sheet"

/-- The per-file mapper inside the `Promise.all` of `handleSubmitDraft`:
spreadsheets (declared type or lowercased `.xlsx` name) become a text
part prefixed with the Excel filename header, CSVs a text part with the
CSV filename header, images and every remaining type an inline base64
part (the source spells the image branch separately but builds the same
part as the final branch). -/
def normalizeFile (f : UploadFile) : Except String GeminiPart :=
  let fileName := lowerStr f.name
  if f.declaredType == xlsxMime || endsWithStr fileName ".xlsx" then
    match convertExcelToText f with
    | Except.error e => Except.error e
    | Except.ok textContent =>
        Except.ok (GeminiPart.text
          ("Conteúdo do arquivo Excel \"" ++ f.name ++ "\":\n\n" ++ textContent))
  else if f.declaredType == "text/csv" || endsWithStr fileName ".csv" then
    match fileToText f with
    | Except.error e => Except.error e
    | Except.ok textContent =>
        Except.ok (GeminiPart.text
          ("Conteúdo do arquivo CSV \"" ++ f.name ++ "\":\n\n" ++ textContent))
  else if startsWithStr f.declaredType "image/" then
    match fileToBase64 f with
    | Except.error e => Except.error e
    | Except.ok b => Except.ok (GeminiPart.inlineData f.declaredType b)
  else
    match fileToBase64 f with
    | Except.error e => Except.error e
    | Except.ok b => Except.ok (GeminiPart.inlineData f.declaredType b)

/-- `Promise.all` over the mapped files: resolves with every part in
file order, or rejects with the error of the first failing file. -/
def normalizeFiles : List UploadFile → Except String (List GeminiPart)
  | [] => Except.ok []
  | f :: rest =>
    match normalizeFile f with
    | Except.error e => Except.error e
    | Except.ok p =>
      match normalizeFiles rest with
      | Except.error e => Except.error e
      | Except.ok ps => Except.ok (p :: ps)

/-- What the file-processing phase of `handleSubmitDraft` leads to:
whether `generateReportDraft` is reached, the part list handed to it,
and the message stored by `setError` when the surrounding catch runs. -/
structure DraftSubmitOutcome where
  generationCalled : Bool
  sentParts : Option (List GeminiPart)
  errorSet : Option String
deriving DecidableEq, Repr

/-- The file-processing phase of `handleSubmitDraft`: a rejection of the
`Promise.all` is caught by the enclosing try/catch, which records the
message and never reaches the `generateReportDraft` call; on success
the complete part list is sent. -/
def handleSubmitDraft (files : List UploadFile) : DraftSubmitOutcome :=
  match normalizeFiles files with
  | Except.error e =>
      { generationCalled := false, sentParts := none, errorSet := some e }
  | Except.ok parts =>
      { generationCalled := true, sentParts := some parts, errorSet := none }

/-! ## Helper lemmas -/

/-- A scripted poll fetch that makes the loop keep going: a parsed ok
response that neither resolves (completed with truthy url) nor rejects
(failed). -/
def nonTerminalFetch (f : PollFetch) : Prop :=
  ∃ r, f = PollFetch.ok r ∧
    (r.status == "completed" && optStrTruthy r.pptxUrl) = false ∧
    (r.status == "failed") = false

/-- Against a script of non-terminal responses long enough to feed every
allowed attempt, the poll loop times out having issued exactly the
remaining `maxAttempts - attempts` polls. -/
theorem pollFrom_nonTerminal_timeout (script : List PollFetch) :
    ∀ attempts : Nat, (∀ f ∈ script, nonTerminalFetch f) →
      maxAttempts - attempts ≤ script.length → attempts ≤ maxAttempts →
      pollFrom script attempts = some (PollOutcome.timedOut, maxAttempts - attempts) := by
  induction script with
  | nil =>
    intro a _ hl ha
    have ha30 : a = maxAttempts := by
      simp [maxAttempts] at hl ha ⊢
      omega
    subst ha30
    rw [pollFrom.eq_def]
    norm_num [maxAttempts]
  | cons f rest ih =>
    intro a hall hl ha
    by_cases hgt : a + 1 > maxAttempts
    · have ha30 : a = maxAttempts := by simp [maxAttempts] at hgt ha ⊢; omega
      subst ha30
      rw [pollFrom.eq_def]
      norm_num
    · obtain ⟨r, hf, hc, hfl⟩ := hall f (by simp)
      subst hf
      rw [pollFrom.eq_def]
      rw [if_neg hgt]
      simp only
      rw [hc]
      simp only [Bool.false_eq_true, if_false]
      rw [hfl]
      simp only [Bool.false_eq_true, if_false]
      rw [ih (a + 1) (fun g hg => hall g (by simp [hg]))
        (by simp [maxAttempts] at hl ⊢; omega) (by omega)]
      simp only [Option.some.injEq, Prod.mk.injEq, true_and]
      simp [maxAttempts] at hgt ⊢
      omega

/-! ## Claims about the export poll loop -/

/-- A scripted `pending` status response. -/
def pendingStatusResponse : GammaGenerationStatusResponse := { status := "pending" }

/-- Claim C1: for every run of the export poll loop in which every
polled status response is `pending` (with at least the attempt-ceiling
many responses available), the loop resolves to the timeout error and
issues exactly `maxAttempts = 30` polls — in particular it never issues
a 31st or 32nd poll after the ceiling is exceeded. -/
theorem C1_all_pending_times_out (script : List PollFetch)
    (hpend : ∀ f ∈ script, ∃ r, f = PollFetch.ok r ∧ r.status = "pending")
    (hlen : maxAttempts ≤ script.length) :
    pollForPptxGeneration script = some (PollOutcome.timedOut, maxAttempts) := by
  have hnt : ∀ f ∈ script, nonTerminalFetch f := by
    intro f hf
    obtain ⟨r, hfr, hs⟩ := hpend f hf
    refine ⟨r, hfr, ?_, ?_⟩
    · rw [hs]
      have : (("pending" : String) == "completed") = false := by decide
      rw [this, Bool.false_and]
    · rw [hs]
      decide
  have := pollFrom_nonTerminal_timeout script 0 hnt (by omega) (by omega)
  simpa [pollForPptxGeneration] using this

/-- Witness for C1: 31 consecutive scripted `pending` responses, ceiling
30 — the run times out and only 30 polls are issued (no 32nd poll). -/
theorem C1_all_pending_times_out_witness :
    (∀ f ∈ List.replicate 31 (PollFetch.ok pendingStatusResponse),
        ∃ r, f = PollFetch.ok r ∧ r.status = "pending") ∧
    maxAttempts ≤ (List.replicate 31 (PollFetch.ok pendingStatusResponse)).length ∧
    pollForPptxGeneration (List.replicate 31 (PollFetch.ok pendingStatusResponse)) =
      some (PollOutcome.timedOut, maxAttempts) := by
  have h1 : ∀ f ∈ List.replicate 31 (PollFetch.ok pendingStatusResponse),
      ∃ r, f = PollFetch.ok r ∧ r.status = "pending" := by
    intro f hf
    exact ⟨pendingStatusResponse, (List.mem_replicate.mp hf).2, rfl⟩
  have h2 : maxAttempts ≤ (List.replicate 31 (PollFetch.ok pendingStatusResponse)).length := by
    simp [maxAttempts]
  exact ⟨h1, h2, C1_all_pending_times_out _ h1 h2⟩

/-- A scripted `completed` status response carrying a result url. -/
def completedStatusResponse (url : String) : GammaGenerationStatusResponse :=
  { status := "completed", pptxUrl := some url }

/-- Claim C2: with scripted responses `[pending, pending, completed
with url]` (and anything after), the loop resolves with that url after
exactly 3 polls and consumes nothing further — the timer is cleared on
resolution. -/
theorem C2_resolves_after_three_polls (url : String) (rest : List PollFetch)
    (h : url ≠ "") :
    pollForPptxGeneration
      (PollFetch.ok pendingStatusResponse :: PollFetch.ok pendingStatusResponse ::
        PollFetch.ok (completedStatusResponse url) :: rest) =
      some (PollOutcome.resolved url, 3) := by
  have hu : (url != "") = true := by simp [h]
  have hp : (("pending" : String) == "completed") = false := by decide
  have hp2 : (("pending" : String) == "failed") = false := by decide
  simp [pollForPptxGeneration, pollFrom, pendingStatusResponse, completedStatusResponse,
    optStrTruthy, hu, hp, hp2, maxAttempts]

/-- Witness for C2 at a concrete url. -/
theorem C2_resolves_after_three_polls_witness :
    ("https://gamma.app/export/deck.pptx" : String) ≠ "" ∧
    pollForPptxGeneration
      (PollFetch.ok pendingStatusResponse :: PollFetch.ok pendingStatusResponse ::
        PollFetch.ok (completedStatusResponse "https://gamma.app/export/deck.pptx") :: []) =
      some (PollOutcome.resolved "https://gamma.app/export/deck.pptx", 3) :=
  ⟨by decide, C2_resolves_after_three_polls "https://gamma.app/export/deck.pptx" [] (by decide)⟩

/-- Claim C10: a poll response with status `completed` but no result
url does not resolve and does not reject on its iteration — the loop
keeps treating it like `pending`, and a job that stays in that state
times out once the attempt ceiling is exceeded, after exactly
`maxAttempts = 30` polls. -/
theorem C10_completed_without_url_keeps_polling (script : List PollFetch)
    (hcomp : ∀ f ∈ script, ∃ r, f = PollFetch.ok r ∧
      r.status = "completed" ∧ optStrTruthy r.pptxUrl = false)
    (hlen : maxAttempts ≤ script.length) :
    pollForPptxGeneration script = some (PollOutcome.timedOut, maxAttempts) := by
  have hnt : ∀ f ∈ script, nonTerminalFetch f := by
    intro f hf
    obtain ⟨r, hfr, hs, hu⟩ := hcomp f hf
    refine ⟨r, hfr, ?_, ?_⟩
    · rw [hs, hu, Bool.and_false]
    · rw [hs]
      decide
  have := pollFrom_nonTerminal_timeout script 0 hnt (by omega) (by omega)
  simpa [pollForPptxGeneration] using this

/-- A scripted `completed` response whose `pptxUrl` field is absent. -/
def completedWithoutUrlResponse : GammaGenerationStatusResponse := { status := "completed" }

/-- Witness for C10: 31 scripted `completed`-without-url responses; the
run behaves like all-pending and times out after 30 polls. -/
theorem C10_completed_without_url_keeps_polling_witness :
    (∀ f ∈ List.replicate 31 (PollFetch.ok completedWithoutUrlResponse),
        ∃ r, f = PollFetch.ok r ∧ r.status = "completed" ∧ optStrTruthy r.pptxUrl = false) ∧
    maxAttempts ≤ (List.replicate 31 (PollFetch.ok completedWithoutUrlResponse)).length ∧
    pollForPptxGeneration (List.replicate 31 (PollFetch.ok completedWithoutUrlResponse)) =
      some (PollOutcome.timedOut, maxAttempts) := by
  have h1 : ∀ f ∈ List.replicate 31 (PollFetch.ok completedWithoutUrlResponse),
      ∃ r, f = PollFetch.ok r ∧ r.status = "completed" ∧ optStrTruthy r.pptxUrl = false := by
    intro f hf
    exact ⟨completedWithoutUrlResponse, (List.mem_replicate.mp hf).2, rfl, rfl⟩
  have h2 : maxAttempts ≤ (List.replicate 31 (PollFetch.ok completedWithoutUrlResponse)).length := by
    simp [maxAttempts]
  exact ⟨h1, h2, C10_completed_without_url_keeps_polling _ h1 h2⟩

/-! ## Claims about the catalog fetch -/

/-- Consuming a run of `hasMore = true` pages followed by a final page
with `hasMore = false` appends exactly the projected entries of those
pages, in page order, to the accumulator, and touches nothing after the
final page. -/
theorem listLoop_pages (front : List ThemesPage) (lastPage : ThemesPage)
    (rest : List PageFetch) (hlast : lastPage.hasMore = false) :
    ∀ (acc : List GammaTheme) (cur : Option String),
      (∀ p ∈ front, p.hasMore = true) →
      listLoop ((front ++ [lastPage]).map PageFetch.ok ++ rest) acc cur true =
        some (CatalogOutcome.themes
          (acc ++ ((front ++ [lastPage]).map (fun p => p.data.map projectTheme)).flatten)) := by
  induction front with
  | nil =>
    intro acc cur _
    rw [listLoop.eq_def]
    simp only [List.nil_append, List.map_cons, List.map_nil, List.cons_append, if_true]
    rw [listLoop.eq_def, hlast]
    simp
  | cons p ps ih =>
    intro acc cur hfront
    have hp : p.hasMore = true := hfront p (by simp)
    rw [listLoop.eq_def]
    simp only [List.cons_append, List.map_cons, if_true]
    rw [hp, ih (acc ++ p.data.map projectTheme) p.nextCursor
      (fun q hq => hfront q (by simp [hq]))]
    simp [List.append_assoc]

/-- Claim C3: whenever the backend serves ok pages whose `hasMore`
eventually turns false, `listGammaThemes` terminates after finitely many
page requests — it consumes exactly the pages up to and including the
first `hasMore = false` page, regardless of what would follow — and
returns exactly the concatenation, in page order, of the pages'
projected `{id, name}` entries. -/
theorem C3_catalog_is_page_concatenation (front : List ThemesPage)
    (lastPage : ThemesPage) (rest : List PageFetch)
    (hfront : ∀ p ∈ front, p.hasMore = true) (hlast : lastPage.hasMore = false) :
    listGammaThemes ((front ++ [lastPage]).map PageFetch.ok ++ rest) =
      some (CatalogOutcome.themes
        (((front ++ [lastPage]).map (fun p => p.data.map projectTheme)).flatten)) := by
  have := listLoop_pages front lastPage rest hlast [] none hfront
  simpa [listGammaThemes] using this

/-- First scripted catalog page of the C3 witness: reports more pages. -/
def witnessPage1 : ThemesPage :=
  { data := [{ id := "theme-1", name := "Alpha" }],
    hasMore := true, nextCursor := some "cursor-1" }

/-- Second scripted catalog page of the C3 witness: final page. -/
def witnessPage2 : ThemesPage :=
  { data := [{ id := "theme-2", name := "Beta" }, { id := "theme-3", name := "Delta" }],
    hasMore := false }

/-- Witness for C3: a two-page catalog run returns the three themes in
page order. -/
theorem C3_catalog_is_page_concatenation_witness :
    (∀ p ∈ [witnessPage1], p.hasMore = true) ∧ witnessPage2.hasMore = false ∧
    listGammaThemes (([witnessPage1] ++ [witnessPage2]).map PageFetch.ok ++ []) =
      some (CatalogOutcome.themes
        ((([witnessPage1] ++ [witnessPage2]).map (fun p => p.data.map projectTheme)).flatten)) :=
  ⟨by decide, by decide,
    C3_catalog_is_page_concatenation [witnessPage1] witnessPage2 [] (by decide) (by decide)⟩

/-- A malformed backend page: always `hasMore = true` with an unchanging
cursor. -/
def malformedPage : ThemesPage :=
  { data := [{ id := "theme-1", name := "Alpha" }],
    hasMore := true, nextCursor := some "cursor-stuck" }

/-- Feeding the loop any finite number of malformed all-`hasMore` pages
never completes it: it still wants another page. -/
theorem listLoop_malformed (n : Nat) :
    ∀ (acc : List GammaTheme) (cur : Option String),
      listLoop (List.replicate n (PageFetch.ok malformedPage)) acc cur true = none := by
  induction n with
  | zero =>
    intro acc cur
    rw [listLoop.eq_def]
    simp [List.replicate]
  | succ k ih =>
    intro acc cur
    rw [List.replicate_succ, listLoop.eq_def]
    simp only [if_true]
    exact ih _ _

/-- Counterexample to claim C4 as stated: there is no fixed bound on
the number of pages `listGammaThemes` requests against a backend that
always answers `hasMore = true` with an unchanging cursor — for every
candidate bound `B`, a script of `B` such responses is exhausted with
the loop still requesting a further page. -/
theorem C4_counterexample : ¬ ∃ B : Nat,
    listGammaThemes (List.replicate B (PageFetch.ok malformedPage)) ≠ none := by
  rintro ⟨B, h⟩
  exact h (listLoop_malformed B [] none)

/-- Claim C4 amended: the catalog fetch trusts the server and has no
defensive page bound — against a malformed backend that always reports
`hasMore = true` with an unchanging cursor it keeps requesting pages
unboundedly: for every `n`, consuming `n` responses leaves it still
polling for another page. -/
theorem C4_amended_no_page_bound (n : Nat) :
    listGammaThemes (List.replicate n (PageFetch.ok malformedPage)) = none :=
  listLoop_malformed n [] none

/-! ## Claim about the shared error classification -/

/-- Claim C5: for every HTTP response from the export backend — at the
catalog fetch, the export submission or a status poll — a 403 whose
body contains the proxy-activation marker yields the distinct
proxy-access error (at every call site), any other non-success response
yields the generic error carrying status and body, and a success
response passes through unclassified. -/
theorem C5_error_classification (status : Nat) (body : String) :
    (status = 403 ∧ bodyHasMarker body = true →
      classifyGammaResponse status body = some GammaRequestError.proxyAccessRequired ∧
      (∀ rest, listGammaThemes (PageFetch.bad status body :: rest) =
        some (CatalogOutcome.httpError GammaRequestError.proxyAccessRequired)) ∧
      (∀ rest, pollForPptxGeneration (PollFetch.bad status body :: rest) =
        some (PollOutcome.httpError GammaRequestError.proxyAccessRequired, 1)) ∧
      submitGeneration (SubmitFetch.bad status body) =
        SubmitOutcome.httpError GammaRequestError.proxyAccessRequired) ∧
    (isOkStatus status = false → ¬(status = 403 ∧ bodyHasMarker body = true) →
      classifyGammaResponse status body = some (GammaRequestError.apiError status body)) ∧
    (isOkStatus status = true → classifyGammaResponse status body = none) := by
  refine ⟨?_, ?_, ?_⟩
  · rintro ⟨rfl, hm⟩
    have hcls : classifyNonOk 403 body = GammaRequestError.proxyAccessRequired := by
      simp [classifyNonOk, hm]
    have hok : isOkStatus 403 = false := by decide
    refine ⟨by simp [classifyGammaResponse, hok, hcls], ?_, ?_, ?_⟩
    · intro rest
      rw [listGammaThemes, listLoop.eq_def]
      simp [hcls]
    · intro rest
      rw [pollForPptxGeneration, pollFrom.eq_def]
      simp [hcls, maxAttempts]
    · simp [submitGeneration, hcls]
  · intro hok hne
    have hcond : (status == 403 && bodyHasMarker body) = false := by
      by_cases h4 : status = 403
      · subst h4
        cases hb : bodyHasMarker body
        · simp
        · exact absurd ⟨rfl, hb⟩ hne
      · have : (status == 403) = false := by simp [h4]
        simp [this]
    simp [classifyGammaResponse, hok, classifyNonOk, hcond]
  · intro hok
    simp [classifyGammaResponse, hok]

/-- Witness for C5: the three classification branches at concrete
responses — a 403 with the activation marker in the body, a plain 500,
and a 200 success. -/
theorem C5_error_classification_witness :
    classifyGammaResponse 403 "To use this server, request access: CorsDemo page" =
      some GammaRequestError.proxyAccessRequired ∧
    classifyGammaResponse 500 "internal error" =
      some (GammaRequestError.apiError 500 "internal error") ∧
    classifyGammaResponse 200 "{}" = none :=
  ⟨((C5_error_classification 403 "To use this server, request access: CorsDemo page").1
      ⟨rfl, by decide⟩).1,
    (C5_error_classification 500 "internal error").2.1 (by decide) (by decide),
    (C5_error_classification 200 "{}").2.2 (by decide)⟩

/-! ## Claim about the suggestion helpers -/

/-- Claim C6: for every draft and every combination of the two
suggestion calls succeeding or throwing, neither helper raises to its
caller (both are total functions into `String`): a throwing call yields
the empty string for its field while the other call's successful result
is still returned, unchanged, as its cleaned text. -/
theorem C6_suggestion_failures_isolated (promptCall styleCall : Except String String) :
    (∀ e, promptCall = Except.error e → (suggestionEngine promptCall styleCall).1 = "") ∧
    (∀ t, promptCall = Except.ok t →
      (suggestionEngine promptCall styleCall).1 = cleanSuggestion t) ∧
    (∀ e, styleCall = Except.error e → (suggestionEngine promptCall styleCall).2 = "") ∧
    (∀ t, styleCall = Except.ok t →
      (suggestionEngine promptCall styleCall).2 = cleanSuggestion t) := by
  refine ⟨?_, ?_, ?_, ?_⟩ <;> (rintro x rfl; rfl)

/-- Witness for C6: the prompt-suggestion call throws while the
style-suggestion call succeeds; the failing field degrades to the empty
string and the successful one comes through (trimmed, quotes
stripped). -/
theorem C6_suggestion_failures_isolated_witness :
    (suggestionEngine (Except.error "network down")
        (Except.ok " \"Fotorrealista, corporativo\" ")).1 = "" ∧
    (suggestionEngine (Except.error "network down")
        (Except.ok " \"Fotorrealista, corporativo\" ")).2 =
      cleanSuggestion " \"Fotorrealista, corporativo\" " ∧
    cleanSuggestion " \"Fotorrealista, corporativo\" " = "Fotorrealista, corporativo" :=
  ⟨(C6_suggestion_failures_isolated (Except.error "network down")
      (Except.ok " \"Fotorrealista, corporativo\" ")).1 "network down" rfl,
    (C6_suggestion_failures_isolated (Except.error "network down")
      (Except.ok " \"Fotorrealista, corporativo\" ")).2.2.2
      " \"Fotorrealista, corporativo\" " rfl,
    by decide⟩

/-! ## Claims about file normalization -/

/-- If any file in the list fails to normalize, the whole
`Promise.all` rejects with some file's error. -/
theorem normalizeFiles_error (files : List UploadFile)
    (h : ∃ f ∈ files, ∃ e, normalizeFile f = Except.error e) :
    ∃ e, normalizeFiles files = Except.error e := by
  induction files with
  | nil =>
    obtain ⟨f, hf, _⟩ := h
    simp at hf
  | cons g rest ih =>
    obtain ⟨f, hf, e, he⟩ := h
    rw [List.mem_cons] at hf
    cases hg : normalizeFile g with
    | error e2 => exact ⟨e2, by simp [normalizeFiles, hg]⟩
    | ok p =>
      cases hf with
      | inl hfg =>
        subst hfg
        rw [hg] at he
        cases he
      | inr hfr =>
        obtain ⟨e3, he3⟩ := ih ⟨f, hfr, e, he⟩
        exact ⟨e3, by simp [normalizeFiles, hg, he3]⟩

/-- The C7 failing input: a file named `data.xlsx` whose read completes
with no result, so `convertExcelToText` rejects with the literal
message `"Failed to read file."`. -/
def unreadableXlsxFile : UploadFile :=
  { name := "data.xlsx", declaredType := xlsxMime, resultNull := true }

/-- Counterexample to claim C7 as stated: the failure is not a typed
error carrying the failing file's name.  At the concrete failing file
`data.xlsx` the recorded error is the raw reader message
`"Failed to read file."`, which does not contain the filename — while
the atomicity half of the claim does hold (no generation call). -/
theorem C7_counterexample :
    (handleSubmitDraft [unreadableXlsxFile]).errorSet = some "Failed to read file." ∧
    containsSubstringB "Failed to read file." "data.xlsx" = false ∧
    (handleSubmitDraft [unreadableXlsxFile]).generationCalled = false := by
  refine ⟨?_, ?_, ?_⟩ <;> decide

/-- Claim C7 amended: when at least one file of the request fails to
read or parse, normalization fails atomically — the raw, untyped
read/parse error (which does not carry the file's name) is surfaced, no
generation call is issued and no partial file list is ever sent to the
generation backend. -/
theorem C7_failing_file_aborts_request (files : List UploadFile)
    (h : ∃ f ∈ files, ∃ e, normalizeFile f = Except.error e) :
    (handleSubmitDraft files).generationCalled = false ∧
    (handleSubmitDraft files).sentParts = none := by
  obtain ⟨e, he⟩ := normalizeFiles_error files h
  simp [handleSubmitDraft, he]

/-- Witness for the amended C7 at the concrete failing file. -/
theorem C7_failing_file_aborts_request_witness :
    (∃ f ∈ [unreadableXlsxFile], ∃ e, normalizeFile f = Except.error e) ∧
    (handleSubmitDraft [unreadableXlsxFile]).generationCalled = false ∧
    (handleSubmitDraft [unreadableXlsxFile]).sentParts = none :=
  have h : ∃ f ∈ [unreadableXlsxFile], ∃ e, normalizeFile f = Except.error e :=
    ⟨unreadableXlsxFile, by simp, "Failed to read file.", rfl⟩
  ⟨h, C7_failing_file_aborts_request [unreadableXlsxFile] h⟩

/-! ## Claim about prompt composition -/

/-- Claim C8: for every theme identifier outside the closed
`THEME_PROMPTS` mapping, prompt composition still returns a non-empty
brief — the generic fallback — and never fails; the composed user
prompt and system instruction are the stated deterministic
concatenations of their inputs. -/
theorem C8_unknown_theme_gets_fallback (theme briefing tone : String)
    (h : List.lookup theme THEME_PROMPTS = none) :
    themePromptFor theme = genericThemePrompt ∧
    themePromptFor theme ≠ "" ∧
    fullUserPrompt theme briefing =
      genericThemePrompt ++ "\n\n**Briefing do Usuário:**\n" ++ briefing ∧
    finalSystemPrompt tone =
      MARY_PERSONA_PROMPT ++ "\n1.4 Tom Específico para este Relatório: Adote um tom **"
        ++ tone ++ "**." := by
  have hp : themePromptFor theme = genericThemePrompt := by
    simp [themePromptFor, h]
  refine ⟨hp, ?_, ?_, ?_⟩
  · rw [hp]
    decide
  · rw [fullUserPrompt, hp]
  · simp [finalSystemPrompt, toneInstruction, String.append_assoc]

/-- Witness for C8 at a theme identifier outside the known set. -/
theorem C8_unknown_theme_gets_fallback_witness :
    List.lookup "Tema Desconhecido" THEME_PROMPTS = none ∧
    themePromptFor "Tema Desconhecido" = genericThemePrompt ∧
    themePromptFor "Tema Desconhecido" ≠ "" :=
  have h : List.lookup "Tema Desconhecido" THEME_PROMPTS = none := by decide
  ⟨h, (C8_unknown_theme_gets_fallback "Tema Desconhecido" "briefing" "Estratégico" h).1,
    (C8_unknown_theme_gets_fallback "Tema Desconhecido" "briefing" "Estratégico" h).2.1⟩

/-! ## Claim about the Excel sheet serialization -/

/-- The concatenation, in source sheet order, of one marker-wrapped
block per sheet. -/
def concatSheetBlocks : List SheetData → String
  | [] => ""
  | s :: rest => sheetBlock s ++ concatSheetBlocks rest

/-- The `fullText` fold of `convertExcelToText` equals the accumulator
followed by the per-sheet blocks in order. -/
theorem foldl_sheetBlocks (l : List SheetData) :
    ∀ acc : String,
      l.foldl (fun fullText s => fullText ++ sheetBlock s) acc =
        acc ++ concatSheetBlocks l := by
  induction l with
  | nil =>
    intro acc
    simp [concatSheetBlocks, String.append_empty]
  | cons s rest ih =>
    intro acc
    simp only [List.foldl_cons, concatSheetBlocks, ih, String.append_assoc]

/-- Claim C9: for every spreadsheet whose workbook parses to `n`
sheets, the normalized text is exactly the trimmed concatenation, in
source sheet order, of one `START OF SHEET`/`END OF SHEET` marker pair
per sheet, each carrying that sheet's name and wrapping that sheet's
delimited-text serialization. -/
theorem C9_one_marker_pair_per_sheet (f : UploadFile) (wb : List SheetData)
    (h1 : f.readFails = false) (h2 : f.resultNull = false)
    (h3 : f.workbook = some wb) :
    convertExcelToText f = Except.ok (jsTrim (concatSheetBlocks wb)) := by
  have he : excelFullText wb = concatSheetBlocks wb := by
    rw [excelFullText, foldl_sheetBlocks, String.empty_append]
  simp [convertExcelToText, h1, h2, h3, he]

/-- The two-sheet workbook of the C9 witness. -/
def sampleSheets : List SheetData :=
  [ { sheetName := "Plan1", csv := "a,b\n1,2" },
    { sheetName := "Plan2", csv := "c\n3" } ]

/-- The C9 witness file: a readable spreadsheet parsing to
`sampleSheets`. -/
def sampleXlsxFile : UploadFile :=
  { name := "vendas.xlsx", declaredType := xlsxMime, workbook := some sampleSheets }

/-- Witness for C9: the two-sheet workbook serializes to exactly two
marker pairs in sheet order, with the trailing blank line trimmed. -/
theorem C9_one_marker_pair_per_sheet_witness :
    sampleXlsxFile.readFails = false ∧ sampleXlsxFile.resultNull = false ∧
    sampleXlsxFile.workbook = some sampleSheets ∧
    convertExcelToText sampleXlsxFile = Except.ok (jsTrim (concatSheetBlocks sampleSheets)) ∧
    jsTrim (concatSheetBlocks sampleSheets) =
      "--- START OF SHEET: Plan1 ---\na,b\n1,2\n--- END OF SHEET: Plan1 ---\n\n--- START OF SHEET: Plan2 ---\nc\n3\n--- END OF SHEET: Plan2 ---" :=
  ⟨rfl, rfl, rfl, C9_one_marker_pair_per_sheet sampleXlsxFile sampleSheets rfl rfl rfl,
    by decide⟩
